import Mathlib

/-!
Shallow embedding of the openclaw-mc-plugin sources (TypeScript) in Lean 4.

Modules embedded:
* `autonomous.ts` — the behavior scheduler: registry of behavior definitions,
  `startBehavior` / `stopBehavior` / `stopAllBehaviors` / `listBehaviors` /
  `initAutonomous` / `shutdownAutonomous`, and the interval callback wrapped
  around each behavior's tick function.
* `mc-bot.ts` (the variant wired to the scheduler, with `waitForGoal` /
  `navigateTo`) — connection lifecycle (`connect` / `disconnect` and the
  `spawn` / `error` / `end` event handlers) and the action facade
  (`moveTo`, `digAt`, `placeBlock`, `collectBlock`, `craftItem`).
* `chat-commands.ts` — the in-game chat command registry and the message
  handler with its owner-only gate.

JavaScript objects used as string-keyed records are embedded as association
lists with first-match lookup; object spread / `Object.assign` become a merge
in which the update's bindings shadow the base's.  `setInterval` timers get an
explicit identity (a fresh counter value) plus the interval they were armed
with.  External collaborators (mineflayer world queries, pathfinder events)
are inputs: a `World` record carries the environment's responses.
-/

namespace OpenClawMc

/-- A patrol waypoint `{x, y, z}` (the only object shape stored inside a
behavior config by the source). -/
structure Wp where
  x : Int
  y : Int
  z : Int
deriving DecidableEq, Repr

/-- The universe of values the source actually stores in behavior configs:
numbers, strings, booleans, and the patrol waypoint array. -/
inductive Val where
  | num (n : Int)
  | str (s : String)
  | bool (b : Bool)
  | wps (l : List Wp)
deriving DecidableEq, Repr

/-- A JS object used as a record: association list, first binding wins on
lookup. -/
abbrev Config := List (String × Val)

/-- Property read (`obj[k]`): first matching binding. -/
def Config.get (c : Config) (k : String) : Option Val :=
  match c with
  | [] => none
  | (k', v) :: rest => if k' = k then some v else Config.get rest k

/-- Object spread / `Object.assign`: `merge base upd` answers lookups from
`upd` first, then from `base` — the observable semantics of
`{...base, ...upd}`. -/
def Config.merge (base upd : Config) : Config := upd ++ base

/-- JS truthiness of a property read (`undefined`, `0`, `""`, `false` are
falsy; arrays are truthy). -/
def isTruthy : Option Val → Bool
  | none => false
  | some (.num n) => decide (n ≠ 0)
  | some (.str s) => decide (s ≠ "")
  | some (.bool b) => b
  | some (.wps _) => true

instance {ε α : Type} [DecidableEq ε] [DecidableEq α] : DecidableEq (Except ε α) := fun x y =>
  match x, y with
  | .ok a, .ok b =>
      if h : a = b then .isTrue (congrArg Except.ok h)
      else .isFalse (fun he => h (Except.ok.inj he))
  | .error e, .error f =>
      if h : e = f then .isTrue (congrArg Except.error h)
      else .isFalse (fun he => h (Except.error.inj he))
  | .ok _, .error _ => .isFalse (fun he => Except.noConfusion he)
  | .error _, .ok _ => .isFalse (fun he => Except.noConfusion he)

/-- A log line, tagged with the logger method used. -/
inductive LogEntry where
  | info (msg : String)
  | warn (msg : String)
  | error (msg : String)
deriving DecidableEq, Repr

/-! ### `Map` operations (JS `Map` keyed by behavior name) -/

/-- `Map.get`. -/
def mget {α : Type} : List (String × α) → String → Option α
  | [], _ => none
  | (k', v) :: rest, k => if k' = k then some v else mget rest k

/-- `Map.set`: replace the binding in place if the key is present, else
append. -/
def mset {α : Type} : List (String × α) → String → α → List (String × α)
  | [], k, v => [(k, v)]
  | (k', v') :: rest, k, v =>
      if k' = k then (k, v) :: rest else (k', v') :: mset rest k v

/-- `Map.delete`. -/
def mdel {α : Type} : List (String × α) → String → List (String × α)
  | [], _ => []
  | (k', v) :: rest, k => if k' = k then mdel rest k else (k', v) :: mdel rest k

/-- Number of live bindings a key has (1 for a JS `Map`; proved ≤ 1 for the
timer table in every reachable scheduler state). -/
def countKey {α : Type} : List (String × α) → String → Nat
  | [], _ => 0
  | (k', _) :: rest, k => (if k' = k then 1 else 0) + countKey rest k

/-! ### Behavior registry (`behaviorDefs` in `autonomous.ts`) -/

/-- A registered behavior definition (its tick function is kept outside the
record; the scheduler invokes it through `fireTick`). -/
structure BehaviorDef where
  name : String
  description : String
  defaultConfig : Config
  interval : Nat
deriving DecidableEq, Repr

/-- The five built-in behaviors pushed onto `behaviorDefs` at module load. -/
def builtinDefs : List BehaviorDef :=
  [ { name := "auto_eat"
    , description := "Automatically eat food when hunger drops below a threshold"
    , defaultConfig := [("threshold", Val.num 14)]
    , interval := 2000 }
  , { name := "guard"
    , description := "Attack hostile mobs that come within a radius"
    , defaultConfig := [("radius", Val.num 16)]
    , interval := 500 }
  , { name := "auto_collect"
    , description := "Continuously find and mine a specific block type nearby"
    , defaultConfig := [("block", Val.str "oak_log"), ("radius", Val.num 32), ("pauseMs", Val.num 1000)]
    , interval := 3000 }
  , { name := "auto_follow"
    , description := "Continuously follow a specific player"
    , defaultConfig := [("player", Val.str ""), ("distance", Val.num 3)]
    , interval := 1000 }
  , { name := "patrol"
    , description := "Walk between a list of waypoints continuously"
    , defaultConfig := [("waypoints", Val.wps []), ("currentIndex", Val.num 0), ("waitMs", Val.num 2000)]
    , interval := 3000 } ]

/-! ### Scheduler state (module globals of `autonomous.ts`) -/

/-- A live `setInterval` timer: a fresh identity plus the interval it was
armed with. -/
structure TimerRec where
  id : Nat
  interval : Nat
deriving DecidableEq, Repr

/-- The mutable module state of `autonomous.ts`: `_bot`, `activeTimers`,
`behaviorStates`, plus a fresh-timer counter and the logger output. -/
structure SchedState where
  hasBot : Bool
  timers : List (String × TimerRec)
  states : List (String × Config)
  nextTimer : Nat
  log : List LogEntry
deriving DecidableEq, Repr

/-- Module state at process start. -/
def initSched : SchedState :=
  { hasBot := false, timers := [], states := [], nextTimer := 0, log := [] }

/-- `initAutonomous(bot, logger)`. -/
def initAutonomous (s : SchedState) : SchedState := { s with hasBot := true }

/-- `startBehavior(name, configOverrides?)`.  Throws become `Except.error`;
all mutations happen after the two checks, so a throw leaves the state
unchanged.  When the behavior is already running, the source reads
`behaviorStates.get(name)!` (non-null assertion: a live timer always has a
run-state); the unreachable missing case is rendered as an empty record. -/
def startBehavior (reg : List BehaviorDef) (s : SchedState) (name : String)
    (overrides : Option Config) : SchedState × Except String String :=
  if ¬ s.hasBot then (s, .error "Bot not connected.")
  else
    match reg.find? (fun d => d.name == name) with
    | none =>
        (s, .error ("Unknown behavior: " ++ name ++ ". Available: "
          ++ String.intercalate ", " (reg.map (fun d => d.name))))
    | some d =>
        match mget s.timers name with
        | some _ =>
            match overrides with
            | some ov =>
                let st := (mget s.states name).getD []
                ({ s with states := mset s.states name (Config.merge st ov) },
                 .ok ("Behavior \"" ++ name ++ "\" config updated."))
            | none => (s, .ok ("Behavior \"" ++ name ++ "\" is already running."))
        | none =>
            let st : Config :=
              Config.merge (Config.merge [("enabled", Val.bool true)] d.defaultConfig)
                (overrides.getD [])
            ({ s with
                states := mset s.states name st,
                timers := mset s.timers name { id := s.nextTimer, interval := d.interval },
                nextTimer := s.nextTimer + 1,
                log := s.log ++ [LogEntry.info ("[Auto] Started behavior: " ++ name)] },
             .ok ("Behavior \"" ++ name ++ "\" started."))

/-- `stopBehavior(name)`: never throws, performs no registry lookup. -/
def stopBehavior (s : SchedState) (name : String) : SchedState × String :=
  match mget s.timers name with
  | none => (s, "Behavior \"" ++ name ++ "\" is not running.")
  | some _ =>
      let states' :=
        match mget s.states name with
        | some st => mset s.states name (Config.merge st [("enabled", Val.bool false)])
        | none => s.states
      ({ s with
          timers := mdel s.timers name,
          states := states',
          log := s.log ++ [LogEntry.info ("[Auto] Stopped behavior: " ++ name)] },
       "Behavior \"" ++ name ++ "\" stopped.")

/-- One row of `listBehaviors()`. -/
structure BehaviorInfo where
  name : String
  description : String
  running : Bool
  config : Config
deriving DecidableEq, Repr

/-- `listBehaviors()`: pure read over Registry × run-states. -/
def listBehaviors (reg : List BehaviorDef) (s : SchedState) : List BehaviorInfo :=
  reg.map (fun d =>
    { name := d.name
    , description := d.description
    , running := (mget s.timers d.name).isSome
    , config := (mget s.states d.name).getD d.defaultConfig })

/-- `stopAllBehaviors()`: snapshot the running names, stop each. -/
def stopAllBehaviors (s : SchedState) : SchedState × String :=
  let names := s.timers.map (fun p => p.1)
  let s' := names.foldl (fun acc n => (stopBehavior acc n).1) s
  (s', if names.length > 0 then "Stopped: " ++ String.intercalate ", " names
       else "No behaviors were running.")

/-- `shutdownAutonomous()`: stop every running behavior, release `_bot`. -/
def shutdownAutonomous (s : SchedState) : SchedState :=
  let names := s.timers.map (fun p => p.1)
  let s' := names.foldl (fun acc n => (stopBehavior acc n).1) s
  { s' with hasBot := false }

/-- One firing of the `setInterval` callback armed for behavior `name`,
whose registered tick function is `t` (a tick may update the run-state in
place or throw): skip when `_bot` is gone or the run-state is not enabled;
otherwise run the tick under `try`/`catch`, a throw being logged as a
warning tagged with the behavior name. -/
def fireTick (s : SchedState) (name : String) (t : Config → Except String Config) :
    SchedState :=
  if ¬ s.hasBot then s
  else
    match mget s.states name with
    | none => s
    | some st =>
        if ¬ isTruthy (Config.get st "enabled") then s
        else
          match t st with
          | .ok st' => { s with states := mset s.states name st' }
          | .error msg =>
              { s with log := s.log ++ [LogEntry.warn ("[Auto:" ++ name ++ "] " ++ msg)] }

/-! ### Scheduler call sequences -/

/-- One external call into the scheduler's control API. -/
inductive Op where
  | start (name : String) (ov : Option Config)
  | stop (name : String)
  | stopAll
  | initA
  | shutdownA

/-- State transition of one call (return values discarded). -/
def applyOp (reg : List BehaviorDef) (s : SchedState) : Op → SchedState
  | .start n ov => (startBehavior reg s n ov).1
  | .stop n => (stopBehavior s n).1
  | .stopAll => (stopAllBehaviors s).1
  | .initA => initAutonomous s
  | .shutdownA => shutdownAutonomous s

/-- Run a sequence of control calls from a state. -/
def runOps (reg : List BehaviorDef) (s : SchedState) (ops : List Op) : SchedState :=
  ops.foldl (applyOp reg) s

/-! ### Session lifecycle (`mc-bot.ts`, the variant wired to the scheduler) -/

/-- `BotStatus`. -/
inductive BotStatus where
  | disconnected
  | connecting
  | connected
deriving DecidableEq, Repr

/-- Module state of `mc-bot.ts` plus the scheduler it drives: the singleton
`bot` reference, `currentStatus`, and a count of `mineflayer.createBot`
invocations (each one opens a fresh connection handshake). -/
structure McState where
  sched : SchedState
  bot : Bool
  status : BotStatus
  created : Nat
deriving DecidableEq, Repr

/-- Module state at process start. -/
def initMc : McState :=
  { sched := initSched, bot := false, status := .disconnected, created := 0 }

/-- The events that drive the connection lifecycle: the synchronous body of a
`connect(cfg)` call, the `spawn` / `error` / `end` events of a created bot,
and a `disconnect()` call. -/
inductive McEvent where
  | connectCall
  | spawn
  | errorEv
  | endEv
  | disconnectCall

/-- One lifecycle step.  `connectCall` is the promise executor of
`connect(cfg)`: if `bot` is non-null it resolves with the snapshot at once;
otherwise it flips status to `connecting` and calls `mineflayer.createBot`
(counted in `created`).  `spawn` installs the bot, marks `connected` and runs
`initAutonomous`.  `error` during `connecting` rejects and resets the status.
`end` (kick or connection drop) runs `shutdownAutonomous`, clears `bot` and
the status.  `disconnectCall` is a no-op when already disconnected, else
`shutdownAutonomous` + `bot.quit()` + reset. -/
def mcStep (s : McState) : McEvent → McState
  | .connectCall =>
      if s.bot then s
      else { s with status := .connecting, created := s.created + 1 }
  | .spawn =>
      { s with bot := true, status := .connected, sched := initAutonomous s.sched }
  | .errorEv =>
      if s.status = .connecting then { s with status := .disconnected } else s
  | .endEv =>
      { s with sched := shutdownAutonomous s.sched, bot := false, status := .disconnected }
  | .disconnectCall =>
      if ¬ s.bot then s
      else { s with sched := shutdownAutonomous s.sched, bot := false, status := .disconnected }

/-- Run a sequence of lifecycle events from process start. -/
def runMc (evs : List McEvent) : McState := evs.foldl mcStep initMc

/-! ### Action facade (`mc-bot.ts` helpers and actions)

The world session and the pathfinder are external collaborators; a `World`
record carries their responses: the block table seen before navigation, the
block table seen after a navigation wait has completed, how the next
navigation wait ends, and the results of the `minecraft-data` / `findBlocks`
/ `findBlock` / `recipesFor` queries an operation performs. -/

/-- An integer block coordinate. -/
structure Vec3i where
  x : Int
  y : Int
  z : Int
deriving DecidableEq, Repr

/-- Squared Euclidean distance.  For integer coordinates the source's
`a.distanceTo(b) <= r` is exactly `distSq a b ≤ r²`. -/
def distSq (a b : Vec3i) : Int :=
  (a.x - b.x) ^ 2 + (a.y - b.y) ^ 2 + (a.z - b.z) ^ 2

/-- How a navigation wait ends: one of the three wake conditions of
`waitForGoal`. -/
inductive NavOutcome where
  | goalReached
  | pathStop
  | timeout
deriving DecidableEq, Repr

/-- The environment's responses to one facade operation. -/
structure World where
  /-- `bot` is non-null (`getBotOrThrow` succeeds). -/
  connected : Bool
  /-- `bot.entity.position` when the operation starts. -/
  botPos : Vec3i
  /-- `bot.blockAt` before any navigation wait. -/
  blocks : List (Vec3i × String)
  /-- `bot.blockAt` after a navigation wait has completed. -/
  blocksAfter : List (Vec3i × String)
  /-- How the next navigation wait ends. -/
  outcome : NavOutcome
  /-- `mcData.blocksByName` domain. -/
  knownBlocks : List String
  /-- `bot.findBlocks` result. -/
  found : List Vec3i
  /-- `mcData.itemsByName` domain. -/
  knownItems : List String
  /-- `bot.recipesFor(id, null, 1, null)` is non-empty. -/
  recipesNoTable : Bool
  /-- `bot.findBlock(crafting_table, 32)` result. -/
  tablePos : Option Vec3i
  /-- `bot.recipesFor(id, null, 1, table)` is non-empty. -/
  recipesWithTable : Bool
deriving DecidableEq, Repr

/-- `bot.blockAt(pos)` against a block table: the block's name, or `none`
for an unloaded position. -/
def blockAt (blocks : List (Vec3i × String)) (p : Vec3i) : Option String :=
  match blocks with
  | [] => none
  | (q, n) :: rest => if q = p then some n else blockAt rest p

/-- `getBotOrThrow()` failure message. -/
def notConnectedMsg : String := "Minecraft bot is not connected. Use minecraft_connect first."

/-- `waitForGoal(b, timeout)`: resolves on `goal_reached` or `path_stop`;
on timeout it stops the pathfinder and rejects with
`"Pathfinding timed out."`. -/
def waitForGoal (w : World) : Except String Unit :=
  match w.outcome with
  | .goalReached => .ok ()
  | .pathStop => .ok ()
  | .timeout => .error "Pathfinding timed out."

/-- `navigateTo(b, pos, range)`: return at once when already within
`range + 1`, else set a `GoalNear` and wait. -/
def navigateTo (w : World) (pos : Vec3i) (range : Int) : Except String Unit :=
  if distSq w.botPos pos ≤ (range + 1) ^ 2 then .ok ()
  else waitForGoal w

/-- `moveTo(x, y, z)`: set a `GoalNear(x, y, z, 1)` and wait; the success
message's rounded floating-point distance is elided. -/
def moveTo (w : World) (x y z : Int) : Except String String :=
  if ¬ w.connected then .error notConnectedMsg
  else
    match waitForGoal w with
    | .error e => .error e
    | .ok _ =>
        .ok ("Arrived near " ++ toString x ++ ", " ++ toString y ++ ", "
          ++ toString z ++ ".")

/-- `digAt(x, y, z)`: resolve the block once, fail when absent or air,
navigate into range, then dig the block object resolved *before* the
navigation (the source passes the original `block` to `bot.dig`). -/
def digAt (w : World) (x y z : Int) : Except String String :=
  if ¬ w.connected then .error notConnectedMsg
  else
    let target : Vec3i := { x := x, y := y, z := z }
    match blockAt w.blocks target with
    | none => .error "No solid block at that position."
    | some bn =>
        if bn = "air" then .error "No solid block at that position."
        else
          match navigateTo w target 4 with
          | .error e => .error e
          | .ok _ =>
              .ok ("Dug " ++ bn ++ " at " ++ toString x ++ ", " ++ toString y
                ++ ", " ++ toString z ++ ".")

/-- `placeBlock(x, y, z)`: resolve the reference block, navigate into range,
place (the face-vector computation has no observable the claims touch). -/
def placeBlock (w : World) (x y z : Int) : Except String String :=
  if ¬ w.connected then .error notConnectedMsg
  else
    let target : Vec3i := { x := x, y := y, z := z }
    match blockAt w.blocks target with
    | none => .error "No reference block at that position."
    | some _ =>
        match navigateTo w target 4 with
        | .error e => .error e
        | .ok _ => .ok "Block placed."

/-- The per-position body of `collectBlock`'s loop: skip when the initial
resolve finds nothing solid; then `try { navigate; re-resolve; dig }` with a
`catch` that logs and continues, so any failure yields no increment. -/
def collectStep (w : World) (acc : Nat) (pos : Vec3i) : Nat :=
  match blockAt w.blocks pos with
  | none => acc
  | some bn =>
      if bn = "air" then acc
      else
        match navigateTo w pos 4 with
        | .error _ => acc
        | .ok _ =>
            match blockAt w.blocksAfter pos with
            | none => acc
            | some fn => if fn = "air" then acc else acc + 1

/-- `collectBlock(blockName, count)`: resolve the block type, find candidate
positions once, then navigate / re-resolve / dig each, converting every
per-block failure into skip-and-continue. -/
def collectBlock (w : World) (blockName : String) (count : Nat) : Except String String :=
  if ¬ w.connected then .error notConnectedMsg
  else if ¬ w.knownBlocks.contains blockName then
    .error ("Unknown block type: " ++ blockName)
  else if w.found.isEmpty then
    .error ("No " ++ blockName ++ " found within 64 blocks.")
  else
    let collected := w.found.foldl (collectStep w) 0
    .ok ("Collected " ++ toString collected ++ "/" ++ toString w.found.length
      ++ " " ++ blockName ++ ".")

/-- `craftItem(itemName, count)`: try a table-less recipe first; otherwise
locate a crafting table within 32 blocks, navigate to it, retry the recipe
lookup with the table. -/
def craftItem (w : World) (itemName : String) (count : Nat) : Except String String :=
  if ¬ w.connected then .error notConnectedMsg
  else if ¬ w.knownItems.contains itemName then
    .error ("Unknown item: " ++ itemName)
  else if w.recipesNoTable then
    .ok ("Crafted " ++ itemName ++ " x" ++ toString count ++ ".")
  else
    match w.tablePos with
    | none =>
        .error ("No available recipe for " ++ itemName
          ++ ". No crafting table nearby (need one within 32 blocks for complex recipes).")
    | some tp =>
        match navigateTo w tp 3 with
        | .error e => .error e
        | .ok _ =>
            if w.recipesWithTable then
              .ok ("Crafted " ++ itemName ++ " x" ++ toString count ++ ".")
            else .error ("No available recipe for " ++ itemName ++ " (missing materials?).")

/-! ### Chat commands (`chat-commands.ts`) -/

/-- A chat command registry entry (its `execute` body is an external effect;
the handler's observable is which command runs). -/
structure ChatCommand where
  name : String
  aliases : List String
  ownerOnly : Bool
deriving DecidableEq, Repr

/-- The `commands` array, in registration order. -/
def commands : List ChatCommand :=
  [ { name := "help", aliases := ["h", "?"], ownerOnly := false }
  , { name := "status", aliases := ["stat", "info"], ownerOnly := false }
  , { name := "players", aliases := ["who", "online"], ownerOnly := false }
  , { name := "time", aliases := [], ownerOnly := false }
  , { name := "weather", aliases := [], ownerOnly := false }
  , { name := "come", aliases := ["here"], ownerOnly := false }
  , { name := "goto", aliases := ["go", "move"], ownerOnly := false }
  , { name := "follow", aliases := ["stalk"], ownerOnly := false }
  , { name := "stop", aliases := ["halt", "cancel"], ownerOnly := false }
  , { name := "jump", aliases := [], ownerOnly := false }
  , { name := "look", aliases := [], ownerOnly := false }
  , { name := "dig", aliases := ["mine", "break"], ownerOnly := false }
  , { name := "digat", aliases := [], ownerOnly := false }
  , { name := "collect", aliases := ["gather"], ownerOnly := false }
  , { name := "place", aliases := [], ownerOnly := false }
  , { name := "inventory", aliases := ["inv", "items"], ownerOnly := false }
  , { name := "equip", aliases := [], ownerOnly := false }
  , { name := "toss", aliases := ["drop", "throw"], ownerOnly := false }
  , { name := "hold", aliases := ["select"], ownerOnly := false }
  , { name := "craft", aliases := [], ownerOnly := false }
  , { name := "attack", aliases := ["fight", "kill"], ownerOnly := false }
  , { name := "flee", aliases := ["run"], ownerOnly := false }
  , { name := "say", aliases := ["chat"], ownerOnly := false }
  , { name := "disconnect", aliases := ["quit", "dc"], ownerOnly := true } ]

/-- The alias map built in `setupChatCommands`, as a lookup. -/
def aliasLookup (n : String) : Option String :=
  match commands.find? (fun c => c.aliases.contains n) with
  | some c => some c.name
  | none => none

/-- JS whitespace for `trim` / `\s` on the characters these commands use. -/
def isWs (c : Char) : Bool :=
  decide (c = ' ' ∨ c = '\t' ∨ c = '\n' ∨ c = '\r')

/-- `trim()`. -/
def trimChars (l : List Char) : List Char :=
  ((l.dropWhile isWs).reverse.dropWhile isWs).reverse

/-- `split(/\s+/)` restricted to the non-empty tokens (an all-whitespace
remainder yields no token, which the handler treats the same as JS's
lone empty token: no command word). -/
def splitTokens : List Char → List Char → List (List Char)
  | [], acc => if acc.isEmpty then [] else [acc.reverse]
  | c :: rest, acc =>
      if isWs c then
        if acc.isEmpty then splitTokens rest [] else acc.reverse :: splitTokens rest []
      else splitTokens rest (c :: acc)

/-- ASCII lowercasing (`toLowerCase` on the ASCII command words). -/
def lowerAscii (l : List Char) : List Char := l.map Char.toLower

/-- The parsing prelude of `handleMessage`: prefix check
(`message.startsWith(prefix)`), `slice`/`trim`/split, lowercased command
word; `none` when the handler returns silently. -/
def parsedName (pfx message : String) : Option String :=
  if ¬ pfx.data.isPrefixOf message.data then none
  else
    let parts := splitTokens (trimChars (message.data.drop pfx.data.length)) []
    let name := String.mk (lowerAscii (parts.headD []))
    if name = "" then none else some name

/-- The observable of one chat message through `handleMessage`. -/
inductive CmdOutcome where
  | ignored
  | unknownCmd (name : String)
  | denied
  | executed (name : String)
deriving DecidableEq, Repr

/-- `handleMessage(sender, message, whisper)`: drop own messages and
non-prefixed ones; resolve aliases; unknown commands get a reply; then the
owner gate `cmd.ownerOnly && owner && sender !== owner`; else execute. -/
def handleMessage (botUsername owner pfx sender message : String) : CmdOutcome :=
  if sender = botUsername then .ignored
  else
    match parsedName pfx message with
    | none => .ignored
    | some name =>
        let resolved := (aliasLookup name).getD name
        match commands.find? (fun c => c.name == resolved) with
        | none => .unknownCmd name
        | some c =>
            if c.ownerOnly ∧ owner ≠ "" ∧ sender ≠ owner then .denied
            else .executed c.name

/-! ## Lemmas about the map operations -/

theorem mget_mset_self {α : Type} (m : List (String × α)) (k : String) (v : α) :
    mget (mset m k v) k = some v := by
  induction m with
  | nil => simp [mset, mget]
  | cons p rest ih =>
      obtain ⟨k', v'⟩ := p
      by_cases h : k' = k
      · simp [mset, mget, h]
      · simp [mset, mget, h, ih]

theorem countKey_mset_ne {α : Type} (m : List (String × α)) (k n : String) (v : α)
    (h : k ≠ n) : countKey (mset m k v) n = countKey m n := by
  induction m with
  | nil => simp [mset, countKey, h]
  | cons p rest ih =>
      obtain ⟨k', v'⟩ := p
      by_cases hk : k' = k
      · subst hk
        simp [mset, countKey, h]
      · simp [mset, countKey, hk, ih]

theorem countKey_mset_self {α : Type} (m : List (String × α)) (k : String) (v : α) :
    countKey (mset m k v) k = max 1 (countKey m k) := by
  induction m with
  | nil => simp [mset, countKey]
  | cons p rest ih =>
      obtain ⟨k', v'⟩ := p
      by_cases hk : k' = k
      · subst hk
        simp [mset, countKey]
      · simp [mset, countKey, hk, ih]

theorem countKey_mset_le_one {α : Type} (m : List (String × α)) (k : String) (v : α)
    (h : ∀ n, countKey m n ≤ 1) : ∀ n, countKey (mset m k v) n ≤ 1 := by
  intro n
  by_cases hk : k = n
  · subst hk
    rw [countKey_mset_self]
    have := h k
    omega
  · rw [countKey_mset_ne m k n v hk]
    exact h n

theorem countKey_mdel_le {α : Type} (m : List (String × α)) (k n : String) :
    countKey (mdel m k) n ≤ countKey m n := by
  induction m with
  | nil => simp [mdel]
  | cons p rest ih =>
      obtain ⟨k', v'⟩ := p
      by_cases hk : k' = k
      · simp only [mdel, if_pos hk, countKey]
        exact le_trans ih (Nat.le_add_left _ _)
      · simp only [mdel, if_neg hk, countKey]
        exact Nat.add_le_add_left ih _

theorem mget_none_notmem {α : Type} (m : List (String × α)) (k : String)
    (h : mget m k = none) : k ∉ m.map (fun p => p.1) := by
  induction m with
  | nil => simp
  | cons p rest ih =>
      obtain ⟨k', v'⟩ := p
      by_cases hk : k' = k
      · simp [mget, hk] at h
      · simp [mget, hk] at h
        simp [ih h]
        intro hkk
        exact hk hkk.symm

theorem mem_keys_mdel {α : Type} (m : List (String × α)) (k x : String)
    (h : x ∈ (mdel m k).map (fun p => p.1)) :
    x ∈ m.map (fun p => p.1) ∧ x ≠ k := by
  induction m with
  | nil => simp [mdel] at h
  | cons p rest ih =>
      obtain ⟨k', v'⟩ := p
      by_cases hk : k' = k
      · rw [mdel, if_pos hk] at h
        have hr := ih h
        rw [List.map_cons]
        exact ⟨List.mem_cons_of_mem _ hr.1, hr.2⟩
      · rw [mdel, if_neg hk] at h
        rw [List.map_cons] at h ⊢
        rcases List.mem_cons.mp h with he | hr
        · subst he
          exact ⟨List.mem_cons_self _ _, hk⟩
        · have hr' := ih hr
          exact ⟨List.mem_cons_of_mem _ hr'.1, hr'.2⟩

theorem config_get_merge (b u : Config) (k : String) :
    Config.get (Config.merge b u) k
      = (Config.get u k).orElse (fun _ => Config.get b k) := by
  induction u with
  | nil => simp [Config.merge, Config.get, Option.orElse]
  | cons p rest ih =>
      obtain ⟨k', v⟩ := p
      by_cases hk : k' = k
      · simp [Config.merge, Config.get, hk, Option.orElse]
      · simp only [Config.merge] at ih
        simp [Config.merge, Config.get, hk, ih]

/-! ## The at-most-one-timer invariant -/

/-- Every behavior name has at most one live timer. -/
def TimersBounded (s : SchedState) : Prop := ∀ n, countKey s.timers n ≤ 1

theorem startBehavior_bounded (reg : List BehaviorDef) (s : SchedState)
    (name : String) (ov : Option Config) (h : TimersBounded s) :
    TimersBounded (startBehavior reg s name ov).1 := by
  unfold startBehavior
  split
  · exact h
  · split
    · exact h
    · split
      · split
        · intro n
          exact h n
        · exact h
      · intro n
        exact countKey_mset_le_one s.timers name _ h n

theorem stopBehavior_bounded (s : SchedState) (name : String) (h : TimersBounded s) :
    TimersBounded (stopBehavior s name).1 := by
  unfold stopBehavior
  split
  · exact h
  · intro n
    exact le_trans (countKey_mdel_le s.timers name n) (h n)

theorem foldStop_bounded (names : List String) :
    ∀ s : SchedState, TimersBounded s →
      TimersBounded (names.foldl (fun acc n => (stopBehavior acc n).1) s) := by
  induction names with
  | nil => intro s h; exact h
  | cons n rest ih =>
      intro s h
      exact ih _ (stopBehavior_bounded s n h)

theorem applyOp_bounded (reg : List BehaviorDef) (s : SchedState) (op : Op)
    (h : TimersBounded s) : TimersBounded (applyOp reg s op) := by
  cases op with
  | start n ov => exact startBehavior_bounded reg s n ov h
  | stop n => exact stopBehavior_bounded s n h
  | stopAll => exact foldStop_bounded _ s h
  | initA => exact h
  | shutdownA => exact foldStop_bounded _ s h

theorem runOps_bounded (reg : List BehaviorDef) (ops : List Op) :
    ∀ s : SchedState, TimersBounded s → TimersBounded (runOps reg s ops) := by
  induction ops with
  | nil => intro s h; exact h
  | cons op rest ih =>
      intro s h
      exact ih _ (applyOp_bounded reg s op h)

/-! ## Teardown lemmas -/

theorem foldStop_timers_nil (names : List String) :
    ∀ s : SchedState, (∀ x ∈ s.timers.map (fun p => p.1), x ∈ names) →
      ((names.foldl (fun acc n => (stopBehavior acc n).1) s).timers = []) := by
  induction names with
  | nil =>
      intro s h
      have : s.timers.map (fun p => p.1) = [] := by
        cases he : s.timers.map (fun p => p.1) with
        | nil => rfl
        | cons a l =>
            exfalso
            exact absurd (h a (by rw [he]; exact List.mem_cons_self a l)) (by simp)
      simpa using this
  | cons n rest ih =>
      intro s h
      show ((rest.foldl (fun acc m => (stopBehavior acc m).1) ((stopBehavior s n).1)).timers = [])
      apply ih
      intro x hx
      cases hm : mget s.timers n with
      | none =>
          rw [stopBehavior, hm] at hx
          have hxk := h x hx
          have hne : x ≠ n := by
            intro he
            exact mget_none_notmem s.timers n hm (he ▸ hx)
          rcases List.mem_cons.mp hxk with he | hr
          · exact absurd he hne
          · exact hr
      | some tr =>
          rw [stopBehavior, hm] at hx
          simp only [] at hx
          have := mem_keys_mdel s.timers n x hx
          rcases List.mem_cons.mp (h x this.1) with he | hr
          · exact absurd he this.2
          · exact hr

theorem shutdownAutonomous_timers (s : SchedState) :
    (shutdownAutonomous s).timers = [] ∧ (shutdownAutonomous s).hasBot = false := by
  constructor
  · show ((s.timers.map (fun p => p.1)).foldl (fun acc n => (stopBehavior acc n).1) s).timers = []
    exact foldStop_timers_nil _ s (fun x hx => hx)
  · rfl

theorem listBehaviors_none_running (reg : List BehaviorDef) (s : SchedState)
    (h : s.timers = []) : ∀ info ∈ listBehaviors reg s, info.running = false := by
  intro info hi
  simp only [listBehaviors, List.mem_map] at hi
  obtain ⟨d, _, rfl⟩ := hi
  simp [h, mget]

/-! ## Claims -/

/-- C1: over every sequence of scheduler calls a behavior name has at most
one live timer; and a `startBehavior` on a name that is already running
leaves the timer table and the timer counter untouched (same timer record,
no new timer armed) — with overrides it only merges them into the existing
run-state in place and reports a config update, without overrides it reports
that the behavior is already running. -/
theorem startBehavior_at_most_one_timer :
    (∀ (ops : List Op) (name : String),
        countKey (runOps builtinDefs initSched ops).timers name ≤ 1)
    ∧ (∀ (reg : List BehaviorDef) (s : SchedState) (name : String)
         (ov : Option Config) (tr : TimerRec),
         mget s.timers name = some tr →
         (startBehavior reg s name ov).1.timers = s.timers
         ∧ (startBehavior reg s name ov).1.nextTimer = s.nextTimer
         ∧ mget (startBehavior reg s name ov).1.timers name = some tr)
    ∧ (∀ (reg : List BehaviorDef) (s : SchedState) (name : String)
         (ov : Config) (d : BehaviorDef) (tr : TimerRec),
         s.hasBot = true →
         reg.find? (fun x => x.name == name) = some d →
         mget s.timers name = some tr →
         startBehavior reg s name (some ov)
           = ({ s with states := mset s.states name (Config.merge ((mget s.states name).getD []) ov) },
              .ok ("Behavior \"" ++ name ++ "\" config updated."))
         ∧ startBehavior reg s name none
             = (s, .ok ("Behavior \"" ++ name ++ "\" is already running."))) := by
  refine ⟨?_, ?_, ?_⟩
  · intro ops name
    exact runOps_bounded builtinDefs ops initSched (fun n => Nat.le_succ 0) name
  · intro reg s name ov tr hm
    unfold startBehavior
    split
    · exact ⟨rfl, rfl, hm⟩
    · split
      · exact ⟨rfl, rfl, hm⟩
      · rw [hm]
        cases ov with
        | some o => exact ⟨rfl, rfl, hm⟩
        | none => exact ⟨rfl, rfl, hm⟩
  · intro reg s name ov d tr hb hfind hm
    unfold startBehavior
    rw [hb, hfind, hm]
    simp

/-- Witness for C1 at scenario B of the spec: start `guard` with radius 8,
then again with radius 20 while running. -/
theorem startBehavior_at_most_one_timer_witness :
    countKey (runOps builtinDefs initSched
        [.initA, .start "guard" (some [("radius", Val.num 8)])]).timers "guard" ≤ 1
    ∧ (startBehavior builtinDefs
        (runOps builtinDefs initSched [.initA, .start "guard" (some [("radius", Val.num 8)])])
        "guard" (some [("radius", Val.num 20)])).1.timers
      = (runOps builtinDefs initSched
          [.initA, .start "guard" (some [("radius", Val.num 8)])]).timers
    ∧ (startBehavior builtinDefs
        (runOps builtinDefs initSched [.initA, .start "guard" (some [("radius", Val.num 8)])])
        "guard" (some [("radius", Val.num 20)])).2
      = .ok "Behavior \"guard\" config updated."
    ∧ (startBehavior builtinDefs
        (runOps builtinDefs initSched [.initA, .start "guard" (some [("radius", Val.num 8)])])
        "guard" none).2
      = .ok "Behavior \"guard\" is already running." := by
  obtain ⟨h1, h2, h3⟩ := startBehavior_at_most_one_timer
  have hrun := h2 builtinDefs
      (runOps builtinDefs initSched [.initA, .start "guard" (some [("radius", Val.num 8)])])
      "guard" (some [("radius", Val.num 20)]) { id := 0, interval := 500 } (by decide)
  have hupd := h3 builtinDefs
      (runOps builtinDefs initSched [.initA, .start "guard" (some [("radius", Val.num 8)])])
      "guard" [("radius", Val.num 20)]
      { name := "guard"
      , description := "Attack hostile mobs that come within a radius"
      , defaultConfig := [("radius", Val.num 16)]
      , interval := 500 }
      { id := 0, interval := 500 } (by decide) (by decide) (by decide)
  exact ⟨h1 _ "guard", hrun.1, by rw [hupd.1]; rfl, by rw [hupd.2]; rfl⟩

/-- A firing reads only the session flag and the run-states, never the log,
and never touches the timer table. -/
theorem fireTick_effect_shape (s : SchedState) (L : List LogEntry) (n : String)
    (t : Config → Except String Config) :
    (fireTick { s with log := L } n t).states = (fireTick s n t).states
    ∧ (fireTick { s with log := L } n t).timers = s.timers
    ∧ (fireTick s n t).timers = s.timers := by
  unfold fireTick
  by_cases hb : s.hasBot = true
  · cases hms : mget s.states n with
    | none => simp [hb, hms]
    | some st =>
        by_cases he : isTruthy (Config.get st "enabled") = true
        · cases ht : t st with
          | ok st' => simp [hb, hms, he, ht]
          | error m => simp [hb, hms, he, ht]
        · simp [hb, hms, he]
  · simp [hb]

/-- C2: a tick that throws is caught by the interval callback: the firing
only appends a warning tagged with the behavior name to the log — the timer
table, every run-state (this behavior's and all others') and the session
flag are untouched, and the next firing of any behavior's tick proceeds
exactly as it would have from the pre-failure state. -/
theorem tick_failure_isolated :
    ∀ (s : SchedState) (name : String) (t : Config → Except String Config)
      (st : Config) (msg : String),
      s.hasBot = true →
      mget s.states name = some st →
      isTruthy (Config.get st "enabled") = true →
      t st = .error msg →
      fireTick s name t
        = { s with log := s.log ++ [LogEntry.warn ("[Auto:" ++ name ++ "] " ++ msg)] }
      ∧ (fireTick s name t).timers = s.timers
      ∧ (fireTick s name t).states = s.states
      ∧ (∀ (name' : String) (t' : Config → Except String Config),
           (fireTick (fireTick s name t) name' t').states
             = (fireTick s name' t').states
           ∧ (fireTick (fireTick s name t) name' t').timers = s.timers) := by
  intro s name t st msg hb hst he ht
  have hmain : fireTick s name t
      = { s with log := s.log ++ [LogEntry.warn ("[Auto:" ++ name ++ "] " ++ msg)] } := by
    unfold fireTick
    simp [hb, hst, he, ht]
  refine ⟨hmain, by rw [hmain], by rw [hmain], ?_⟩
  intro name' t'
  rw [hmain]
  have hshape := fireTick_effect_shape s
      (s.log ++ [LogEntry.warn ("[Auto:" ++ name ++ "] " ++ msg)]) name' t'
  exact ⟨hshape.1, hshape.2.1⟩

/-- Witness for C2: a `guard` tick that throws fires against a running
scheduler and only a tagged warning is logged. -/
theorem tick_failure_isolated_witness :
    fireTick
        { hasBot := true
        , timers := [("guard", { id := 0, interval := 500 })]
        , states := [("guard", [("enabled", Val.bool true), ("radius", Val.num 16)])]
        , nextTimer := 1
        , log := [] }
        "guard" (fun _ => .error "boom")
      = { hasBot := true
        , timers := [("guard", { id := 0, interval := 500 })]
        , states := [("guard", [("enabled", Val.bool true), ("radius", Val.num 16)])]
        , nextTimer := 1
        , log := [LogEntry.warn "[Auto:guard] boom"] } := by
  have h := tick_failure_isolated
      { hasBot := true
      , timers := [("guard", { id := 0, interval := 500 })]
      , states := [("guard", [("enabled", Val.bool true), ("radius", Val.num 16)])]
      , nextTimer := 1
      , log := [] }
      "guard" (fun _ => .error "boom")
      [("enabled", Val.bool true), ("radius", Val.num 16)] "boom"
      rfl rfl (by decide) rfl
  exact h.1

/-- C3 counterexample: start `guard` with radius 8, stop it (run-state with
radius 8 is retained), start it again with no overrides.  The claim's
`defaults ⊕ last-known-config ⊕ overrides` would give radius 8; the code
rebuilds the run-state from `{enabled: true, ...defaults, ...overrides}`
alone and yields the default radius 16. -/
theorem restart_discards_last_config :
    Config.get ((mget (runOps builtinDefs initSched
        [.initA, .start "guard" (some [("radius", Val.num 8)]),
         .stop "guard", .start "guard" none]).states "guard").getD []) "radius"
      = some (Val.num 16)
    ∧ Config.get ((mget (runOps builtinDefs initSched
        [.initA, .start "guard" (some [("radius", Val.num 8)]),
         .stop "guard", .start "guard" none]).states "guard").getD []) "radius"
      ≠ some (Val.num 8) := by
  constructor
  · decide
  · decide

/-- C3 as amended: starting a stopped behavior rebuilds its run-state as
`{enabled: true} ⊕ defaults ⊕ overrides` — the config retained from the
previous run is discarded, not merged — with a fresh timer armed at the
definition's interval.  The lookup equation shows every key resolves from
the overrides, then the defaults, then the literal `enabled: true`, and
nothing else. -/
theorem start_when_stopped_state :
    ∀ (reg : List BehaviorDef) (s : SchedState) (name : String)
      (d : BehaviorDef) (ov : Option Config),
      s.hasBot = true →
      reg.find? (fun x => x.name == name) = some d →
      mget s.timers name = none →
      (startBehavior reg s name ov).2 = .ok ("Behavior \"" ++ name ++ "\" started.")
      ∧ mget (startBehavior reg s name ov).1.timers name
          = some { id := s.nextTimer, interval := d.interval }
      ∧ (∀ k, Config.get ((mget (startBehavior reg s name ov).1.states name).getD []) k
           = (Config.get (ov.getD []) k).orElse (fun _ =>
               (Config.get d.defaultConfig k).orElse (fun _ =>
                 Config.get [("enabled", Val.bool true)] k))) := by
  intro reg s name d ov hb hfind hm
  have heq : startBehavior reg s name ov
      = ({ s with
            states := mset s.states name (Config.merge (Config.merge [("enabled", Val.bool true)] d.defaultConfig) (ov.getD [])),
            timers := mset s.timers name { id := s.nextTimer, interval := d.interval },
            nextTimer := s.nextTimer + 1,
            log := s.log ++ [LogEntry.info ("[Auto] Started behavior: " ++ name)] },
         .ok ("Behavior \"" ++ name ++ "\" started.")) := by
    unfold startBehavior
    rw [hb, hfind, hm]
    simp
  refine ⟨by rw [heq], ?_, ?_⟩
  · rw [heq]
    exact mget_mset_self s.timers name _
  · intro k
    rw [heq]
    show Config.get ((mget (mset s.states name _) name).getD []) k = _
    rw [mget_mset_self]
    show Config.get (Config.merge (Config.merge [("enabled", Val.bool true)] d.defaultConfig) (ov.getD [])) k = _
    simp only [config_get_merge]

/-- Witness for C3's amended statement: restarting `guard` with no overrides
after a radius-8 run yields radius 16 and a fresh timer at interval 500. -/
theorem start_when_stopped_state_witness :
    (startBehavior builtinDefs (runOps builtinDefs initSched
        [.initA, .start "guard" (some [("radius", Val.num 8)]), .stop "guard"])
        "guard" none).2 = .ok "Behavior \"guard\" started."
    ∧ mget (startBehavior builtinDefs (runOps builtinDefs initSched
        [.initA, .start "guard" (some [("radius", Val.num 8)]), .stop "guard"])
        "guard" none).1.timers "guard" = some { id := 1, interval := 500 }
    ∧ Config.get ((mget (startBehavior builtinDefs (runOps builtinDefs initSched
        [.initA, .start "guard" (some [("radius", Val.num 8)]), .stop "guard"])
        "guard" none).1.states "guard").getD []) "radius"
      = some (Val.num 16) := by
  have h := start_when_stopped_state builtinDefs
      (runOps builtinDefs initSched
        [.initA, .start "guard" (some [("radius", Val.num 8)]), .stop "guard"])
      "guard"
      { name := "guard"
      , description := "Attack hostile mobs that come within a radius"
      , defaultConfig := [("radius", Val.num 16)]
      , interval := 500 }
      none (by decide) (by decide) (by decide)
  refine ⟨by rw [h.1]; rfl, by rw [h.2.1]; rfl, ?_⟩
  rw [h.2.2 "radius"]
  decide

/-- C8 counterexample: `stopBehavior` with a name that is in no registry
returns the plain "is not running" string — it does not fail, and does not
produce the unknown-behavior error listing the valid names. -/
theorem stop_unknown_name_not_an_error :
    stopBehavior initSched "flyy" = (initSched, "Behavior \"flyy\" is not running.")
    ∧ (stopBehavior initSched "flyy").2
        ≠ "Unknown behavior: flyy. Available: auto_eat, guard, auto_collect, auto_follow, patrol" := by
  constructor
  · decide
  · decide

/-- C8 as amended: only `startBehavior` validates the name against the
Registry, failing with the unknown-behavior error that lists the valid
names; `stopBehavior` never consults the Registry — for any name with no
active timer, registered or not, it returns the "is not running" string
without error and leaves the state untouched. -/
theorem unknown_behavior_errors :
    ∀ (reg : List BehaviorDef) (s : SchedState) (name : String) (ov : Option Config),
      (s.hasBot = true →
        reg.find? (fun d => d.name == name) = none →
        startBehavior reg s name ov
          = (s, .error ("Unknown behavior: " ++ name ++ ". Available: "
              ++ String.intercalate ", " (reg.map (fun d => d.name)))))
      ∧ (mget s.timers name = none →
          stopBehavior s name = (s, "Behavior \"" ++ name ++ "\" is not running.")) := by
  intro reg s name ov
  constructor
  · intro hb hfind
    unfold startBehavior
    rw [hb, hfind]
    simp
  · intro hm
    unfold stopBehavior
    rw [hm]

/-- Witness for C8's amended statement at the unregistered name "fly". -/
theorem unknown_behavior_errors_witness :
    startBehavior builtinDefs (initAutonomous initSched) "fly" none
      = (initAutonomous initSched,
         .error "Unknown behavior: fly. Available: auto_eat, guard, auto_collect, auto_follow, patrol")
    ∧ stopBehavior (initAutonomous initSched) "fly"
      = (initAutonomous initSched, "Behavior \"fly\" is not running.") := by
  have h := unknown_behavior_errors builtinDefs (initAutonomous initSched) "fly" none
  refine ⟨?_, ?_⟩
  · rw [h.1 rfl (by decide)]
    rfl
  · rw [h.2 (by decide)]
    rfl

/-- C9: with no session initialized in the scheduler, `startBehavior` fails
with "Bot not connected." for every name — registered or not, with or
without overrides, so the connection check precedes the unknown-name check —
while `stopBehavior`, `stopAllBehaviors` and `listBehaviors` are oblivious
to the session flag: their results are identical whatever its value. -/
theorem start_requires_session :
    ∀ (reg : List BehaviorDef) (s : SchedState) (name : String) (ov : Option Config),
      (s.hasBot = false →
        startBehavior reg s name ov = (s, .error "Bot not connected."))
      ∧ (∀ b, stopBehavior { s with hasBot := b } name
          = ({ (stopBehavior s name).1 with hasBot := b }, (stopBehavior s name).2))
      ∧ (∀ b, (stopAllBehaviors { s with hasBot := b }).2 = (stopAllBehaviors s).2)
      ∧ (∀ b, listBehaviors reg { s with hasBot := b } = listBehaviors reg s) := by
  intro reg s name ov
  refine ⟨?_, ?_, ?_, ?_⟩
  · intro hb
    unfold startBehavior
    rw [hb]
    simp
  · intro b
    cases hm : mget s.timers name with
    | none => simp [stopBehavior, hm]
    | some tr =>
        cases hs : mget s.states name with
        | none => simp [stopBehavior, hm, hs]
        | some st => simp [stopBehavior, hm, hs]
  · intro b
    rfl
  · intro b
    rfl

/-- Witness for C9: with the scheduler's session released, starting the
registered `guard` and the unregistered `warp` both fail with the
not-connected error (never the unknown-name error), while stop and list
still answer. -/
theorem start_requires_session_witness :
    startBehavior builtinDefs initSched "guard" (some [("radius", Val.num 8)])
      = (initSched, .error "Bot not connected.")
    ∧ startBehavior builtinDefs initSched "warp" none
      = (initSched, .error "Bot not connected.")
    ∧ stopBehavior { initSched with hasBot := false } "guard"
      = ({ (stopBehavior initSched "guard").1 with hasBot := false },
         (stopBehavior initSched "guard").2)
    ∧ listBehaviors builtinDefs { initSched with hasBot := false }
      = listBehaviors builtinDefs initSched := by
  have h1 := start_requires_session builtinDefs initSched "guard" (some [("radius", Val.num 8)])
  have h2 := start_requires_session builtinDefs initSched "warp" none
  exact ⟨h1.1 rfl, h2.1 rfl, h1.2.1 false, h1.2.2.2 false⟩

/-- C4: whenever the session ends — the `end` event (kick or connection
drop) or an explicit `disconnect()` on a live bot — every behavior timer is
cancelled, the scheduler's session reference is released, the bot reference
and status are reset, and `listBehaviors` reports nothing running; the
teardown is also a no-op-but-for-the-flag when no behavior is running. -/
theorem session_end_teardown :
    ∀ (reg : List BehaviorDef) (s : McState),
      ((mcStep s .endEv).sched.timers = []
       ∧ (mcStep s .endEv).sched.hasBot = false
       ∧ (mcStep s .endEv).bot = false
       ∧ (mcStep s .endEv).status = .disconnected
       ∧ ∀ info ∈ listBehaviors reg (mcStep s .endEv).sched, info.running = false)
      ∧ (s.bot = true →
          (mcStep s .disconnectCall).sched.timers = []
          ∧ (mcStep s .disconnectCall).sched.hasBot = false
          ∧ (mcStep s .disconnectCall).bot = false
          ∧ (mcStep s .disconnectCall).status = .disconnected
          ∧ ∀ info ∈ listBehaviors reg (mcStep s .disconnectCall).sched, info.running = false)
      ∧ (s.sched.timers = [] →
          shutdownAutonomous s.sched = { s.sched with hasBot := false }) := by
  intro reg s
  have hsh := shutdownAutonomous_timers s.sched
  refine ⟨⟨hsh.1, hsh.2, rfl, rfl, listBehaviors_none_running reg _ hsh.1⟩, ?_, ?_⟩
  · intro hb
    have hstep : mcStep s .disconnectCall
        = { s with sched := shutdownAutonomous s.sched, bot := false, status := .disconnected } := by
      simp [mcStep, hb]
    rw [hstep]
    exact ⟨hsh.1, hsh.2, rfl, rfl, listBehaviors_none_running reg _ hsh.1⟩
  · intro ht
    simp [shutdownAutonomous, ht]

/-- Witness for C4: an `end` event against a session with `guard` and
`auto_eat` running cancels both timers; `disconnect()` releases the
session flag; the teardown on the initial (idle) state only clears the
flag. -/
theorem session_end_teardown_witness :
    (mcStep { sched := runOps builtinDefs initSched [.initA, .start "guard" none, .start "auto_eat" none]
            , bot := true, status := .connected, created := 1 } .endEv).sched.timers = []
    ∧ (mcStep { sched := runOps builtinDefs initSched [.initA, .start "guard" none, .start "auto_eat" none]
              , bot := true, status := .connected, created := 1 } .disconnectCall).sched.hasBot = false
    ∧ shutdownAutonomous initSched = { initSched with hasBot := false } := by
  have h := session_end_teardown builtinDefs
      { sched := runOps builtinDefs initSched [.initA, .start "guard" none, .start "auto_eat" none]
      , bot := true, status := .connected, created := 1 }
  have h0 := session_end_teardown builtinDefs initMc
  exact ⟨h.1.1, (h.2.1 rfl).2.1, h0.2.2 rfl⟩

/-- C5 (code bug): the `connect` executor guards only on a non-null `bot`,
which is installed at `spawn`; two `connect` calls issued before the first
`spawn`/`error` event each run `mineflayer.createBot`, so two sessions are
created — contradicting the claim and the source's own header comment that
at most one active bot instance exists.  A `connect` issued after `spawn`
is, as claimed, a pure no-op. -/
theorem connect_twice_creates_two_sessions :
    (runMc [.connectCall, .connectCall]).created = 2
    ∧ (runMc [.connectCall, .connectCall]).bot = false
    ∧ mcStep (runMc [.connectCall, .spawn]) .connectCall = runMc [.connectCall, .spawn] := by
  exact ⟨by decide, by decide, by decide⟩

/-- A world in which every navigation wait ends in the pathfinder timeout. -/
def timeoutWorld : World :=
  { connected := true
  , botPos := { x := 0, y := 0, z := 0 }
  , blocks := [({ x := 100, y := 0, z := 0 }, "stone")]
  , blocksAfter := [({ x := 100, y := 0, z := 0 }, "stone")]
  , outcome := .timeout
  , knownBlocks := ["stone"]
  , found := [{ x := 100, y := 0, z := 0 }]
  , knownItems := ["stick"]
  , recipesNoTable := false
  , tablePos := some { x := 100, y := 0, z := 0 }
  , recipesWithTable := true }

/-- C6 counterexample: when the navigation wait times out, `moveTo` rejects
with the navigator's "Pathfinding timed out." — the timeout is surfaced to
the caller as a hard error, not converted to best-effort continuation. -/
theorem moveTo_surfaces_path_timeout :
    moveTo timeoutWorld 100 0 0 = .error "Pathfinding timed out." := by
  decide

/-- C6 as amended: `waitForGoal` rejects on timeout, and `moveTo`, `digAt`,
`placeBlock` and `craftItem` (whenever the target is out of range so a wait
happens) propagate that rejection to the caller unchanged; only
`collectBlock` converts per-block navigation failures into skip-and-
continue and still reports a collected count. -/
theorem path_timeout_propagation :
    ∀ (w : World) (x y z : Int),
      w.connected = true → w.outcome = .timeout →
      (moveTo w x y z = .error "Pathfinding timed out.")
      ∧ (∀ bn, blockAt w.blocks { x := x, y := y, z := z } = some bn → bn ≠ "air" →
           ¬ distSq w.botPos { x := x, y := y, z := z } ≤ 25 →
           digAt w x y z = .error "Pathfinding timed out.")
      ∧ (∀ bn, blockAt w.blocks { x := x, y := y, z := z } = some bn →
           ¬ distSq w.botPos { x := x, y := y, z := z } ≤ 25 →
           placeBlock w x y z = .error "Pathfinding timed out.")
      ∧ (∀ (itemName : String) (cnt : Nat) (tp : Vec3i),
           w.knownItems.contains itemName = true →
           w.recipesNoTable = false → w.tablePos = some tp →
           ¬ distSq w.botPos tp ≤ 16 →
           craftItem w itemName cnt = .error "Pathfinding timed out.")
      ∧ (∀ (blockName : String) (cnt : Nat),
           w.knownBlocks.contains blockName = true →
           w.found ≠ [] →
           collectBlock w blockName cnt
             = .ok ("Collected " ++ toString (w.found.foldl (collectStep w) 0) ++ "/"
                 ++ toString w.found.length ++ " " ++ blockName ++ ".")) := by
  intro w x y z hc hout
  refine ⟨?_, ?_, ?_, ?_, ?_⟩
  · simp [moveTo, waitForGoal, hc, hout]
  · intro bn hbn hair hd
    have hnav : navigateTo w { x := x, y := y, z := z } 4 = .error "Pathfinding timed out." := by
      simp [navigateTo, waitForGoal, hout]
      exact not_le.mp hd
    simp [digAt, hc, hbn, hair, hnav]
  · intro bn hbn hd
    have hnav : navigateTo w { x := x, y := y, z := z } 4 = .error "Pathfinding timed out." := by
      simp [navigateTo, waitForGoal, hout]
      exact not_le.mp hd
    simp [placeBlock, hc, hbn, hnav]
  · intro itemName cnt tp hki hnr htp hd
    have hki' : itemName ∈ w.knownItems := by
      simpa using hki
    have hnav : navigateTo w tp 3 = .error "Pathfinding timed out." := by
      simp [navigateTo, waitForGoal, hout]
      exact not_le.mp hd
    simp [craftItem, hc, hki', hnr, htp, hnav]
  · intro blockName cnt hk hne
    have hk' : blockName ∈ w.knownBlocks := by
      simpa using hk
    have hF : w.found.isEmpty = false := by
      cases hf : w.found with
      | nil => exact absurd hf hne
      | cons a l => rfl
    simp [collectBlock, hc, hk', hF]

/-- Witness for C6's amended statement in the all-timeouts world: the four
waiting operations reject with the timeout, `collectBlock` still returns a
collected count. -/
theorem path_timeout_propagation_witness :
    digAt timeoutWorld 100 0 0 = .error "Pathfinding timed out."
    ∧ placeBlock timeoutWorld 100 0 0 = .error "Pathfinding timed out."
    ∧ craftItem timeoutWorld "stick" 1 = .error "Pathfinding timed out."
    ∧ collectBlock timeoutWorld "stone" 1 = .ok "Collected 0/1 stone." := by
  have h := path_timeout_propagation timeoutWorld 100 0 0 rfl rfl
  refine ⟨h.2.1 "stone" (by decide) (by decide) (by decide),
          h.2.2.1 "stone" (by decide) (by decide),
          h.2.2.2.1 "stick" 1 { x := 100, y := 0, z := 0 } (by decide) rfl rfl (by decide),
          ?_⟩
  rw [h.2.2.2.2 "stone" 1 (by decide) (by decide)]
  decide

/-- A world in which the target block turns to air while the avatar is in
transit. -/
def vanishWorld : World :=
  { connected := true
  , botPos := { x := 0, y := 0, z := 0 }
  , blocks := [({ x := 10, y := 0, z := 0 }, "stone")]
  , blocksAfter := [({ x := 10, y := 0, z := 0 }, "air")]
  , outcome := .goalReached
  , knownBlocks := ["stone"]
  , found := [{ x := 10, y := 0, z := 0 }]
  , knownItems := []
  , recipesNoTable := false
  , tablePos := none
  , recipesWithTable := false }

/-- C7 counterexample: the target is solid before transit and air after,
yet `digAt` succeeds and digs the stale pre-navigation block — it never
re-resolves the position and does not fail when the block has
disappeared. -/
theorem digAt_ignores_vanished_block :
    blockAt vanishWorld.blocksAfter { x := 10, y := 0, z := 0 } = some "air"
    ∧ digAt vanishWorld 10 0 0 = .ok "Dug stone at 10, 0, 0." := by
  exact ⟨by decide, by decide⟩

/-- C7 as amended: `digAt` resolves the block exactly once, before
navigating — it fails up front when the position is empty or air, and
otherwise digs the initially-resolved block, its result depending only on
that initial resolve and the navigation outcome, never on the
post-navigation world. -/
theorem digAt_no_reresolution :
    ∀ (w : World) (x y z : Int),
      w.connected = true →
      ((blockAt w.blocks { x := x, y := y, z := z } = none
        ∨ blockAt w.blocks { x := x, y := y, z := z } = some "air") →
          digAt w x y z = .error "No solid block at that position.")
      ∧ (∀ bn, blockAt w.blocks { x := x, y := y, z := z } = some bn → bn ≠ "air" →
          digAt w x y z = (navigateTo w { x := x, y := y, z := z } 4).map (fun _ =>
            "Dug " ++ bn ++ " at " ++ toString x ++ ", " ++ toString y ++ ", "
              ++ toString z ++ ".")) := by
  intro w x y z hc
  constructor
  · intro hcase
    rcases hcase with hnone | hair
    · simp [digAt, hc, hnone]
    · simp [digAt, hc, hair]
  · intro bn hbn hair
    cases hn : navigateTo w { x := x, y := y, z := z } 4 with
    | ok u => simp [digAt, hc, hbn, hair, hn, Except.map]
    | error e => simp [digAt, hc, hbn, hair, hn, Except.map]

/-- Witness for C7's amended statement: in the vanishing-block world the
dig succeeds on the stale block; one position over, the up-front resolve
fails. -/
theorem digAt_no_reresolution_witness :
    digAt vanishWorld 10 0 0 = .ok "Dug stone at 10, 0, 0."
    ∧ digAt vanishWorld 11 0 0 = .error "No solid block at that position." := by
  have h := digAt_no_reresolution vanishWorld 10 0 0 rfl
  have h2 := digAt_no_reresolution vanishWorld 11 0 0 rfl
  constructor
  · rw [h.2 "stone" (by decide) (by decide)]
    decide
  · exact h2.1 (Or.inl (by decide))

/-- The `disconnect` registry entry: the only owner-only command. -/
def disconnectCmd : ChatCommand :=
  { name := "disconnect", aliases := ["quit", "dc"], ownerOnly := true }

/-- Once the sender and prefix checks pass and the word resolves to a
registered command, the handler's outcome is decided by the owner gate
alone. -/
theorem handleMessage_resolves (bu owner pfx sender message nm : String) (c : ChatCommand)
    (hs : sender ≠ bu)
    (hp : parsedName pfx message = some nm)
    (hf : commands.find? (fun x => x.name == (aliasLookup nm).getD nm) = some c) :
    handleMessage bu owner pfx sender message
      = if c.ownerOnly ∧ owner ≠ "" ∧ sender ≠ owner then .denied else .executed c.name := by
  unfold handleMessage
  rw [if_neg hs, hp]
  dsimp only
  rw [hf]

/-- C10: the owner gate `cmd.ownerOnly && owner && sender !== owner` is
enforced only when a non-empty owner is configured — with `owner = ""` no
message from any sender is ever denied and the owner-only `disconnect`
executes for everyone; with a non-empty owner, any other sender invoking
`disconnect` or its aliases is denied. -/
theorem owner_gate :
    (∀ (bu sender message : String),
        handleMessage bu "" "!" sender message ≠ .denied)
    ∧ (∀ (bu sender : String), sender ≠ bu →
        handleMessage bu "" "!" sender "!disconnect" = .executed "disconnect")
    ∧ (∀ (bu owner sender : String), owner ≠ "" → sender ≠ owner → sender ≠ bu →
        handleMessage bu owner "!" sender "!disconnect" = .denied
        ∧ handleMessage bu owner "!" sender "!quit" = .denied
        ∧ handleMessage bu owner "!" sender "!dc" = .denied) := by
  refine ⟨?_, ?_, ?_⟩
  · intro bu sender message hden
    unfold handleMessage at hden
    by_cases hs : sender = bu
    · rw [if_pos hs] at hden
      exact CmdOutcome.noConfusion hden
    · rw [if_neg hs] at hden
      cases hp : parsedName "!" message with
      | none =>
          rw [hp] at hden
          exact CmdOutcome.noConfusion hden
      | some nm =>
          rw [hp] at hden
          dsimp only at hden
          cases hf : commands.find? (fun x => x.name == (aliasLookup nm).getD nm) with
          | none =>
              rw [hf] at hden
              exact CmdOutcome.noConfusion hden
          | some c =>
              rw [hf] at hden
              dsimp only at hden
              by_cases hcond : (c.ownerOnly = true) ∧ ("" : String) ≠ "" ∧ sender ≠ ""
              · exact hcond.2.1 rfl
              · rw [if_neg hcond] at hden
                exact CmdOutcome.noConfusion hden
  · intro bu sender hs
    rw [handleMessage_resolves bu "" "!" sender "!disconnect" "disconnect" disconnectCmd hs
        (by decide) (by decide)]
    rw [if_neg (fun hcond => hcond.2.1 rfl)]
    rfl
  · intro bu owner sender ho hso hsb
    refine ⟨?_, ?_, ?_⟩
    · rw [handleMessage_resolves bu owner "!" sender "!disconnect" "disconnect" disconnectCmd hsb
          (by decide) (by decide)]
      rw [if_pos ⟨rfl, ho, hso⟩]
    · rw [handleMessage_resolves bu owner "!" sender "!quit" "quit" disconnectCmd hsb
          (by decide) (by decide)]
      rw [if_pos ⟨rfl, ho, hso⟩]
    · rw [handleMessage_resolves bu owner "!" sender "!dc" "dc" disconnectCmd hsb
          (by decide) (by decide)]
      rw [if_pos ⟨rfl, ho, hso⟩]

/-- Witness for C10: with no owner configured, "Mallory" runs `!disconnect`;
with owner "Alice", Mallory is denied on `!disconnect` and `!dc`, and no
message of Mallory is denied under the empty owner. -/
theorem owner_gate_witness :
    handleMessage "Bot" "" "!" "Mallory" "!disconnect" = .executed "disconnect"
    ∧ handleMessage "Bot" "" "!" "Mallory" "!status" ≠ .denied
    ∧ handleMessage "Bot" "Alice" "!" "Mallory" "!disconnect" = .denied
    ∧ handleMessage "Bot" "Alice" "!" "Mallory" "!dc" = .denied := by
  obtain ⟨h1, h2, h3⟩ := owner_gate
  have hm := h3 "Bot" "Alice" "Mallory" (by decide) (by decide) (by decide)
  exact ⟨h2 "Bot" "Mallory" (by decide), h1 "Bot" "Mallory" "!status", hm.1, hm.2.2⟩

end OpenClawMc
